import Mathlib

/-
Verification of the session / conversation state machine and the run-polling
orchestration of the monthly marketing analysis app
(src/kimbell_insights_ai_app.py).

The script manipulates a per-session state consisting of the keys
analysis_output, followup_count, conversation_history, csv_data,
analysis_thread_id and last_reply of st.session_state.  We embed that state
as a record and each interactive block of the script (Run Analysis, the
follow-up handler, Reset, Export) as a pure function on it.  External
services are oracles passed as arguments: the sequence of run statuses the
status queries return, the message list of the thread (most recent first, as
the API delivers it), and the outcome of the inference exchange for a
follow-up (some reply on success, none when a call raises).
-/

namespace Radar

/-- One entry of st.session_state.conversation_history: a dict with keys
role and content, both strings. -/
structure ConversationTurn where
  role : String
  content : String
deriving DecidableEq

/-- The per-session mutable state of the script.  Keys that may be absent or
None in st.session_state are Options; absent and None are identified. -/
structure SessionState where
  analysis_output : Option String
  followup_count : Nat
  conversation_history : List ConversationTurn
  csv_data : Option String
  analysis_thread_id : Option String
  last_reply : Option String
deriving DecidableEq

/-- Session-state setup block (lines 28-33): analysis_output None,
followup_count 0, conversation_history empty; the other keys absent. -/
def initialState : SessionState :=
  { analysis_output := none
    followup_count := 0
    conversation_history := []
    csv_data := none
    analysis_thread_id := none
    last_reply := none }

/-- The terminal statuses of the polling loops (lines 116 and 159):
run.status not in this list keeps polling. -/
def terminalStatuses : List String := ["completed", "failed", "cancelled"]

/-- The polling loop: runs.create returns the first status, each
runs.retrieve the next one.  Given the sequence of statuses the successive
queries return, yields the first terminal status reached together with the
number of status queries made; none when the sequence is exhausted without a
terminal status (the loop would still be running). -/
def pollRun : List String → Option (String × Nat)
  | [] => none
  | s :: rest =>
    if terminalStatuses.contains s then some (s, 1)
    else
      match pollRun rest with
      | none => none
      | some (t, n) => some (t, n + 1)

/-- The placeholder user turn seeded into conversation_history by the Run
Analysis block (line 125). -/
def csvSubmittedMarker (month : String) : String :=
  "(CSV data submitted for " ++ month ++ ")"

/-- The Run Analysis block (lines 95-127).  Arguments: the current state,
the selected month, the CSV serialization of the dataset, the id of the
thread the service creates, the statuses returned by the successive status
queries, and the message list of the thread once polling stops (most recent
first).  Returns the new state, the number of status queries made, and
whether a run was actually submitted to the inference service; none models
a crash (polling never reaches a terminal status, or an empty message
list).  Note that the code reads messages.data[0] after the loop without
inspecting the terminal status, so a failed or cancelled run is treated
exactly like a completed one. -/
def runAnalysisAction (st : SessionState) (month csv threadId : String)
    (statuses : List String) (messages : List String) :
    Option (SessionState × Nat × Bool) :=
  if st.analysis_output.isSome then
    some (st, 0, false)
  else
    match pollRun statuses with
    | none => none
    | some (_, n) =>
      match messages.head? with
      | none => none
      | some result =>
        some
          ({ st with
              csv_data := some csv
              analysis_thread_id := some threadId
              analysis_output := some result
              conversation_history :=
                [⟨"user", csvSubmittedMarker month⟩, ⟨"assistant", result⟩] },
            n, true)

/-- Python truthiness of an optional string: the guard
if st.session_state.analysis_output at line 132. -/
def truthy : Option String → Bool
  | none => false
  | some s => s != ""

/-- Python str.split with separator "\n": the chunks of the character list
between newlines.  An empty string yields one empty chunk, as in Python. -/
def splitNl : List Char → List (List Char)
  | [] => [[]]
  | c :: rest =>
    if c = '\n' then [] :: splitNl rest
    else
      match splitNl rest with
      | [] => [[c]]
      | chunk :: chunks => (c :: chunk) :: chunks

/-- preview_csv at line 144: csv_data.split of the newline, the first 11
entries, rejoined with newlines. -/
def previewCsv (csv : String) : String :=
  String.intercalate "\n" (((splitNl csv.data).map String.mk).take 11)

/-- The follow-up prompt built at line 145. -/
def followupPrompt (month preview question : String) : String :=
  "Reminder: this follow-up relates to the CSV data for " ++ month ++
    ":\n\n" ++ preview ++ "\n\nQuestion: " ++ question

/-- The last_reply banner assembled at line 172. -/
def replyBanner (n : Nat) (reply : String) : String :=
  "#### 💬 GPT Reply #" ++ toString n ++ "\n\n" ++ reply

/-- The follow-up section (lines 132-177), entered on every rerun of the
script.  Arguments: the current state, the selected month, the contents of
the follow-up text input (empty string when nothing was typed), and the
outcome of the inference exchange: some reply when the posted run completes
with that reply, none when one of the service calls raises.  Returns the new
state and whether an inference exchange was started; none models a crash
reading the absent csv_data.  The user turn holding the follow-up prompt is
appended to conversation_history at line 146, before any service call, so a
failing exchange leaves that turn behind; followup_count is incremented only
at line 170, after the reply arrived. -/
def askFollowupAction (st : SessionState) (month question : String)
    (inference : Option String) : Option (SessionState × Bool) :=
  if truthy st.analysis_output then
    if st.followup_count < 3 then
      if question = "" then
        some (st, false)
      else
        match st.csv_data with
        | none => none
        | some csv =>
          let prompt := followupPrompt month (previewCsv csv) question
          let st1 :=
            { st with
                conversation_history :=
                  st.conversation_history ++ [⟨"user", prompt⟩] }
          match inference with
          | none => some (st1, true)
          | some reply =>
            some
              ({ st1 with
                  conversation_history :=
                    st1.conversation_history ++ [⟨"assistant", reply⟩]
                  followup_count := st.followup_count + 1
                  last_reply :=
                    some (replyBanner (st.followup_count + 1) reply) },
                true)
    else
      some (st, false)
  else
    some (st, false)

/-- The Reset Analysis button handler (lines 183-189): analysis_output,
last_reply and csv_data are set to None, followup_count to 0,
conversation_history to the empty list.  analysis_thread_id is not touched
by the handler. -/
def resetAction (st : SessionState) : SessionState :=
  { st with
      analysis_output := none
      followup_count := 0
      conversation_history := []
      last_reply := none
      csv_data := none }

/-- One history entry turned into the paragraph the export handler adds for
it (lines 196-200): user and assistant turns get a labelled paragraph, any
other role adds nothing. -/
def paragraphFor (t : ConversationTurn) : Option String :=
  if t.role = "user" then some ("User:\n" ++ t.content)
  else if t.role = "assistant" then some ("Kimbell Analysis:\n" ++ t.content)
  else none

/-- The body paragraphs of the exported document, in history order. -/
def exportParagraphs (history : List ConversationTurn) : List String :=
  history.filterMap paragraphFor

/-- The exported document (lines 193-200): the headings added (exactly the
one doc.add_heading call) and the body paragraphs. -/
def exportDocument (month : String) (history : List ConversationTurn) :
    List String × List String :=
  (["Marketing Analysis – " ++ month], exportParagraphs history)

/-- The generated filename (line 204); the timestamp argument stands for
datetime.now().strftime of the pattern YYYYMMDD_HHMMSS. -/
def exportFilename (month timestamp : String) : String :=
  "Analysis_" ++ month ++ "_" ++ timestamp ++ ".docx"

/-- The speaker label of a role in the exported document. -/
def speakerLabel (role : String) : String :=
  if role = "user" then "User" else "Kimbell Analysis"

/-- A history strictly alternating user and assistant turns, starting with a
user turn, made of complete pairs. -/
def altUA : List ConversationTurn → Bool
  | [] => true
  | [_] => false
  | u :: a :: rest => (u.role == "user") && (a.role == "assistant") && altUA rest

/-- The states reachable from a fresh session through one successful initial
analysis followed by any number of successful follow-ups (no reset, no
failing call). -/
inductive ReachableNoFail : SessionState → Prop where
  | seeded (month csv threadId : String) (statuses messages : List String)
      (st : SessionState) (n : Nat) :
      runAnalysisAction initialState month csv threadId statuses messages =
        some (st, n, true) →
      ReachableNoFail st
  | followup (st st' : SessionState) (month question reply : String) :
      ReachableNoFail st →
      askFollowupAction st month question (some reply) = some (st', true) →
      ReachableNoFail st'

/-! ### Helper lemmas -/

/-- Appending a terminal status to a run of non-terminal statuses makes the
polling loop stop exactly at it, after one query per status. -/
lemma pollRun_append_terminal :
    ∀ (init : List String) (t : String),
      (∀ s ∈ init, s ∉ terminalStatuses) →
      t ∈ terminalStatuses →
      pollRun (init ++ [t]) = some (t, init.length + 1)
  | [], t, _, ht => by simp [pollRun, ht]
  | s :: rest, t, hinit, ht => by
    have hs := hinit s (List.mem_cons_self s rest)
    have ih := pollRun_append_terminal rest t
      (fun u hu => hinit u (List.mem_cons_of_mem s hu)) ht
    simp [pollRun, hs, ih]

/-- Appending one user turn and one assistant turn preserves strict
user/assistant alternation. -/
lemma altUA_append_pair (q a : String) :
    ∀ (h : List ConversationTurn), altUA h = true →
      altUA (h ++ [⟨"user", q⟩, ⟨"assistant", a⟩]) = true
  | [] => fun _ => by simp [altUA]
  | [x] => fun hx => by simp [altUA] at hx
  | x :: y :: rest => fun hxy => by
    simp only [altUA, Bool.and_eq_true] at hxy
    simp only [List.cons_append, altUA, Bool.and_eq_true]
    exact ⟨hxy.1, altUA_append_pair q a rest hxy.2⟩

/-- Evaluation of the follow-up section when the quota gate is open, the
input is non-empty and the inference exchange raises: only the user turn
carrying the follow-up prompt is appended. -/
lemma askFollowup_none_eq (st : SessionState) (month question c : String)
    (hq : question ≠ "") (hcsv : st.csv_data = some c)
    (hout : truthy st.analysis_output = true) (hlt : st.followup_count < 3) :
    askFollowupAction st month question none =
      some ({ st with
          conversation_history := st.conversation_history ++
            [⟨"user", followupPrompt month (previewCsv c) question⟩] },
        true) := by
  simp [askFollowupAction, hout, hlt, hq, hcsv]

/-- Evaluation of the follow-up section when the quota gate is open, the
input is non-empty and the inference exchange succeeds: user and assistant
turns are appended, the counter is incremented, the banner is stored. -/
lemma askFollowup_some_eq (st : SessionState) (month question c reply : String)
    (hq : question ≠ "") (hcsv : st.csv_data = some c)
    (hout : truthy st.analysis_output = true) (hlt : st.followup_count < 3) :
    askFollowupAction st month question (some reply) =
      some ({ st with
          conversation_history := st.conversation_history ++
            [⟨"user", followupPrompt month (previewCsv c) question⟩,
             ⟨"assistant", reply⟩]
          followup_count := st.followup_count + 1
          last_reply := some (replyBanner (st.followup_count + 1) reply) },
        true) := by
  simp [askFollowupAction, hout, hlt, hq, hcsv]

/-- Evaluation of the follow-up section once the quota is exhausted: the
state is untouched and no exchange is started, whatever the input or the
oracle. -/
lemma askFollowup_quota_eq (st : SessionState) (month question : String)
    (inference : Option String) (hge : 3 ≤ st.followup_count) :
    askFollowupAction st month question inference = some (st, false) := by
  simp [askFollowupAction, Nat.not_lt.2 hge]

/-- Any follow-up run that started an exchange and succeeded appended
exactly one user and one assistant turn and incremented the counter. -/
lemma askFollowup_success_shape {st st' : SessionState}
    {month question reply : String}
    (h : askFollowupAction st month question (some reply) = some (st', true)) :
    ∃ prompt : String,
      st'.conversation_history =
        st.conversation_history ++ [⟨"user", prompt⟩, ⟨"assistant", reply⟩] ∧
      st'.followup_count = st.followup_count + 1 := by
  unfold askFollowupAction at h
  split at h
  · split at h
    · split at h
      · simp at h
      · cases hcsv : st.csv_data with
        | none => rw [hcsv] at h; simp at h
        | some csv =>
          rw [hcsv] at h
          simp only [Option.some.injEq, Prod.mk.injEq] at h
          obtain ⟨hrec, -⟩ := h
          refine ⟨followupPrompt month (previewCsv csv) question, ?_, ?_⟩
          · rw [← hrec]; simp
          · rw [← hrec]
    · simp at h
  · simp at h

/-- Any Run Analysis invocation that actually submitted a run seeded the
history with the placeholder user turn and the returned assistant text, and
left the follow-up counter alone. -/
lemma runAnalysis_success_shape {st st' : SessionState}
    {month csv threadId : String} {statuses messages : List String} {n : Nat}
    (h : runAnalysisAction st month csv threadId statuses messages =
      some (st', n, true)) :
    ∃ r : String,
      st'.conversation_history =
        [⟨"user", csvSubmittedMarker month⟩, ⟨"assistant", r⟩] ∧
      st'.followup_count = st.followup_count ∧
      st'.analysis_output = some r := by
  unfold runAnalysisAction at h
  split at h
  · simp at h
  · cases hp : pollRun statuses with
    | none => rw [hp] at h; simp at h
    | some p =>
      rw [hp] at h
      cases hm : messages.head? with
      | none => rw [hm] at h; simp at h
      | some r =>
        rw [hm] at h
        simp only [Option.some.injEq, Prod.mk.injEq] at h
        obtain ⟨hrec, -, -⟩ := h
        exact ⟨r, by rw [← hrec], by rw [← hrec], by rw [← hrec]⟩

/-- A concrete mid-session state used by the concrete instances below: the
initial analysis has answered "ANALYSIS" for month 2025-03 and no follow-up
has been asked yet. -/
def demoState : SessionState :=
  { analysis_output := some "ANALYSIS"
    followup_count := 0
    conversation_history :=
      [⟨"user", csvSubmittedMarker "2025-03"⟩, ⟨"assistant", "ANALYSIS"⟩]
    csv_data := some "h\nr1"
    analysis_thread_id := some "t1"
    last_reply := none }

/-! ### Claim theorems -/

/-- C1: the spec claims that a run ending in failed or cancelled makes the
Run-Poller fail with AnalysisJobError, fetch no result, and leave the
analysis output None.  The code has no such error path: the loop at line 116
merely exits on any terminal status and lines 120-123 read messages.data[0]
and store it in analysis_output unconditionally.  Evaluated at the status
sequence [in_progress, failed] from a fresh session, where the only message
on the thread is still the one the user posted: the block returns normally
after 2 status queries, reports a submitted run, and sets analysis_output to
the fetched message instead of leaving it None. -/
theorem run_failed_still_sets_output :
    runAnalysisAction initialState "2025-03" "csvdata" "thread_1"
      ["in_progress", "failed"] ["user message body"] =
      some ({ analysis_output := some "user message body"
              followup_count := 0
              conversation_history :=
                [⟨"user", csvSubmittedMarker "2025-03"⟩,
                 ⟨"assistant", "user message body"⟩]
              csv_data := some "csvdata"
              analysis_thread_id := some "thread_1"
              last_reply := none }, 2, true) ∧
    (some "user message body" : Option String) ≠ none :=
  ⟨rfl, by decide⟩

/-- C3 counterexample: the claim says reset clears the job handle
(analysis_thread_id); the Reset handler at lines 183-189 touches every other
session key but not that one, so after resetting a state whose handle is t1
the handle is still t1, not None. -/
theorem reset_keeps_thread_handle :
    (resetAction demoState).analysis_thread_id = some "t1" ∧
    (resetAction demoState).analysis_thread_id ≠ none :=
  ⟨rfl, by decide⟩

/-- C3 amended: reset clears the conversation state (analysis output,
follow-up counter, history), the cached raw dataset snapshot (csv_data) and
the last reply banner, but leaves the job handle analysis_thread_id exactly
as it was. -/
theorem reset_clears_snapshot_keeps_handle (st : SessionState) :
    resetAction st =
      { analysis_output := none
        followup_count := 0
        conversation_history := []
        csv_data := none
        analysis_thread_id := st.analysis_thread_id
        last_reply := none } := rfl

/-- C6: after reset the analysis output is None, the follow-up counter is 0
and the history is empty, and a subsequent Run Analysis is permitted: its
precondition guard (analysis_output is None, line 95) holds again, so the
action takes the submitting branch and not the no-op branch.  Reset is a
single state transition of the embedding (the handler body runs within one
script rerun of the single-threaded session), so no intermediate state is
observable. -/
theorem reset_total_and_rerunnable (st : SessionState)
    (month csv threadId r : String) :
    (resetAction st).analysis_output = none ∧
    (resetAction st).followup_count = 0 ∧
    (resetAction st).conversation_history = [] ∧
    runAnalysisAction (resetAction st) month csv threadId ["completed"] [r] =
      some ({ resetAction st with
          csv_data := some csv
          analysis_thread_id := some threadId
          analysis_output := some r
          conversation_history :=
            [⟨"user", csvSubmittedMarker month⟩, ⟨"assistant", r⟩] },
        1, true) :=
  ⟨rfl, rfl, rfl, rfl⟩

/-- C7: while analysis_output is set, the Run Analysis action is a no-op:
the guard at line 95 hides the button, so the state is unchanged, no status
query is made and no run is submitted to the inference service. -/
theorem rerun_analysis_noop (st : SessionState) (month csv threadId : String)
    (statuses messages : List String) (existing : String)
    (hout : st.analysis_output = some existing) :
    runAnalysisAction st month csv threadId statuses messages =
      some (st, 0, false) := by
  simp [runAnalysisAction, hout]

/-- Witness for C7 at a concrete mid-session state. -/
theorem rerun_analysis_noop_witness :
    demoState.analysis_output = some "ANALYSIS" ∧
    runAnalysisAction demoState "2025-03" "csv2" "t2" ["completed"] ["other"] =
      some (demoState, 0, false) :=
  ⟨rfl, rerun_analysis_noop demoState "2025-03" "csv2" "t2" ["completed"]
    ["other"] "ANALYSIS" rfl⟩

/-- C10: submitting an empty follow-up input is a complete no-op, whatever
the rest of the state and whatever the inference oracle would have
answered: the state is returned unchanged and no exchange is started (the
truthiness test if followup at line 142 fails on the empty string). -/
theorem empty_followup_noop (st : SessionState) (month : String)
    (inference : Option String) :
    askFollowupAction st month "" inference = some (st, false) := by
  simp [askFollowupAction]

/-- C2 counterexample: the claim says a failing inference call leaves the
session state unchanged, with no partial turn appended to history.  The
handler appends the user turn carrying the follow-up prompt at line 146,
before any service call, so when the exchange then raises the history has
grown by that dangling turn.  Evaluated at a concrete mid-session state and
a failing oracle: the history after the failed attempt differs from the
history before it. -/
theorem followup_failure_changes_history :
    askFollowupAction demoState "2025-03" "why" none =
      some ({ demoState with
          conversation_history := demoState.conversation_history ++
            [⟨"user",
              "Reminder: this follow-up relates to the CSV data for 2025-03:\n\nh\nr1\n\nQuestion: why"⟩] },
        true) ∧
    demoState.conversation_history ++
        [(⟨"user",
          "Reminder: this follow-up relates to the CSV data for 2025-03:\n\nh\nr1\n\nQuestion: why"⟩ :
          ConversationTurn)] ≠
      demoState.conversation_history :=
  ⟨by decide, by decide⟩

/-- C2 amended: when the inference exchange of a follow-up fails,
followup_count is not incremented and no assistant turn is appended — the
increment at line 170 only runs after a successful reply — but the user turn
holding the follow-up prompt has already been appended to the history at
line 146; every other state component is unchanged.  On success both turns
are present and the counter is incremented by exactly one. -/
theorem followup_failure_no_increment (st : SessionState)
    (month question c : String)
    (hq : question ≠ "") (hcsv : st.csv_data = some c)
    (hout : truthy st.analysis_output = true) (hlt : st.followup_count < 3) :
    askFollowupAction st month question none =
      some ({ st with
          conversation_history := st.conversation_history ++
            [⟨"user", followupPrompt month (previewCsv c) question⟩] },
        true) ∧
    (∀ reply : String,
      askFollowupAction st month question (some reply) =
        some ({ st with
            conversation_history := st.conversation_history ++
              [⟨"user", followupPrompt month (previewCsv c) question⟩,
               ⟨"assistant", reply⟩]
            followup_count := st.followup_count + 1
            last_reply := some (replyBanner (st.followup_count + 1) reply) },
          true)) :=
  ⟨askFollowup_none_eq st month question c hq hcsv hout hlt,
   fun reply => askFollowup_some_eq st month question c reply hq hcsv hout hlt⟩

/-- Witness for C2 (amended) at a concrete mid-session state. -/
theorem followup_failure_no_increment_witness :
    ("why" ≠ "" ∧ demoState.csv_data = some "h\nr1" ∧
      truthy demoState.analysis_output = true ∧ demoState.followup_count < 3) ∧
    (askFollowupAction demoState "2025-03" "why" none =
        some ({ demoState with
            conversation_history := demoState.conversation_history ++
              [⟨"user", followupPrompt "2025-03" (previewCsv "h\nr1") "why"⟩] },
          true) ∧
      (∀ reply : String,
        askFollowupAction demoState "2025-03" "why" (some reply) =
          some ({ demoState with
              conversation_history := demoState.conversation_history ++
                [⟨"user", followupPrompt "2025-03" (previewCsv "h\nr1") "why"⟩,
                 ⟨"assistant", reply⟩]
              followup_count := demoState.followup_count + 1
              last_reply :=
                some (replyBanner (demoState.followup_count + 1) reply) },
            true))) :=
  ⟨⟨by decide, rfl, rfl, by decide⟩,
   followup_failure_no_increment demoState "2025-03" "why" "h\nr1" (by decide)
     rfl rfl (by decide)⟩

/-- C4: from a fresh session, the polling loop queries the job status once
per returned status until the first terminal one — here a run of
non-terminal statuses followed by completed, reached after exactly one query
per status — and the block then returns the text of the most recent entry of
the message list (its head, the list being most recent first), storing it in
analysis_output. -/
theorem run_poller_completed_returns_latest (st : SessionState)
    (month csv threadId m : String) (initStatuses rest : List String)
    (hout : st.analysis_output = none)
    (hinit : ∀ s ∈ initStatuses, s ∉ terminalStatuses) :
    pollRun (initStatuses ++ ["completed"]) =
      some ("completed", initStatuses.length + 1) ∧
    runAnalysisAction st month csv threadId (initStatuses ++ ["completed"])
        (m :: rest) =
      some ({ st with
          csv_data := some csv
          analysis_thread_id := some threadId
          analysis_output := some m
          conversation_history :=
            [⟨"user", csvSubmittedMarker month⟩, ⟨"assistant", m⟩] },
        initStatuses.length + 1, true) := by
  have hp := pollRun_append_terminal initStatuses "completed" hinit (by decide)
  refine ⟨hp, ?_⟩
  simp [runAnalysisAction, hout, hp]

/-- Witness for C4: the spec scenario — statuses in_progress, in_progress,
completed and final message list [reply-text] yield reply-text after exactly
3 status queries. -/
theorem run_poller_completed_returns_latest_witness :
    initialState.analysis_output = none ∧
    (∀ s ∈ ["in_progress", "in_progress"], s ∉ terminalStatuses) ∧
    (pollRun (["in_progress", "in_progress"] ++ ["completed"]) =
        some ("completed", (["in_progress", "in_progress"] : List String).length + 1) ∧
      runAnalysisAction initialState "2025-03" "csvdata" "thread_1"
          (["in_progress", "in_progress"] ++ ["completed"]) ("reply-text" :: []) =
        some ({ initialState with
            csv_data := some "csvdata"
            analysis_thread_id := some "thread_1"
            analysis_output := some "reply-text"
            conversation_history :=
              [⟨"user", csvSubmittedMarker "2025-03"⟩,
               ⟨"assistant", "reply-text"⟩] },
          (["in_progress", "in_progress"] : List String).length + 1, true)) :=
  ⟨rfl, by decide,
   run_poller_completed_returns_latest initialState "2025-03" "csvdata"
     "thread_1" "reply-text" ["in_progress", "in_progress"] [] rfl (by decide)⟩

/-- C5: with the analysis displayed, a non-empty question in the box and the
dataset cached, a follow-up starts an inference exchange exactly when
followup_count < 3; with the quota exhausted the attempt is rejected with
the state untouched and no exchange started (the gate at line 140 precedes
every service call, and lines 176-177 only display the limit notice). -/
theorem followup_accepted_iff_quota (st : SessionState)
    (month question c : String) (inference : Option String)
    (hq : question ≠ "") (hcsv : st.csv_data = some c)
    (hout : truthy st.analysis_output = true) :
    ((∃ st', askFollowupAction st month question inference = some (st', true)) ↔
      st.followup_count < 3) ∧
    (3 ≤ st.followup_count →
      askFollowupAction st month question inference = some (st, false)) := by
  constructor
  · constructor
    · rintro ⟨st', hst'⟩
      by_contra hge
      rw [askFollowup_quota_eq st month question inference
        (Nat.le_of_not_lt hge)] at hst'
      simp at hst'
    · intro hlt
      cases inference with
      | none =>
        exact ⟨_, askFollowup_none_eq st month question c hq hcsv hout hlt⟩
      | some reply =>
        exact ⟨_, askFollowup_some_eq st month question c reply hq hcsv hout hlt⟩
  · intro hge
    exact askFollowup_quota_eq st month question inference hge

/-- Witness for C5 at a concrete mid-session state with quota remaining. -/
theorem followup_accepted_iff_quota_witness :
    ("why" ≠ "" ∧ demoState.csv_data = some "h\nr1" ∧
      truthy demoState.analysis_output = true) ∧
    (((∃ st', askFollowupAction demoState "2025-03" "why" (some "REPLY") =
          some (st', true)) ↔ demoState.followup_count < 3) ∧
      (3 ≤ demoState.followup_count →
        askFollowupAction demoState "2025-03" "why" (some "REPLY") =
          some (demoState, false))) :=
  ⟨⟨by decide, rfl, rfl⟩,
   followup_accepted_iff_quota demoState "2025-03" "why" "h\nr1" (some "REPLY")
     (by decide) rfl rfl⟩

/-- On a history made only of user and assistant turns — the only roles this
script ever appends — every turn yields exactly one labelled paragraph. -/
lemma exportParagraphs_eq_map :
    ∀ (history : List ConversationTurn),
      (∀ t ∈ history, t.role = "user" ∨ t.role = "assistant") →
      exportParagraphs history =
        history.map (fun t => speakerLabel t.role ++ ":\n" ++ t.content)
  | [] => fun _ => rfl
  | t :: rest => fun hroles => by
    have ih := exportParagraphs_eq_map rest
      (fun u hu => hroles u (List.mem_cons_of_mem t hu))
    have hpar : paragraphFor t =
        some (speakerLabel t.role ++ ":\n" ++ t.content) := by
      rcases hroles t (List.mem_cons_self t rest) with h1 | h1 <;>
        simp [paragraphFor, speakerLabel, h1]
    simp only [exportParagraphs, List.filterMap_cons, hpar, List.map_cons]
    exact congrArg _ ih

/-- C8: on a history of user and assistant turns, the export handler
produces exactly one title heading and one body paragraph per turn, in
order, each labelled User for a user turn and Kimbell Analysis (the display
name hardcoded at line 200) for an assistant turn; and the filename is
Analysis_, the month, an underscore, the timestamp, and the .docx
extension. -/
theorem export_transcript_shape (month timestamp : String)
    (history : List ConversationTurn)
    (hroles : ∀ t ∈ history, t.role = "user" ∨ t.role = "assistant") :
    (exportDocument month history).1.length = 1 ∧
    (exportDocument month history).2 =
      history.map (fun t => speakerLabel t.role ++ ":\n" ++ t.content) ∧
    (exportDocument month history).2.length = history.length ∧
    exportFilename month timestamp =
      "Analysis_" ++ month ++ "_" ++ timestamp ++ ".docx" := by
  have hmap := exportParagraphs_eq_map history hroles
  refine ⟨rfl, hmap, ?_, rfl⟩
  rw [show (exportDocument month history).2 = exportParagraphs history from rfl,
    hmap, List.length_map]

/-- Witness for C8 on a two-turn history. -/
theorem export_transcript_shape_witness :
    (∀ t ∈ [(⟨"user", "q1"⟩ : ConversationTurn), ⟨"assistant", "a1"⟩],
        t.role = "user" ∨ t.role = "assistant") ∧
    ((exportDocument "2025-03"
          [(⟨"user", "q1"⟩ : ConversationTurn), ⟨"assistant", "a1"⟩]).1.length = 1 ∧
      (exportDocument "2025-03"
          [(⟨"user", "q1"⟩ : ConversationTurn), ⟨"assistant", "a1"⟩]).2 =
        [(⟨"user", "q1"⟩ : ConversationTurn), ⟨"assistant", "a1"⟩].map
          (fun t => speakerLabel t.role ++ ":\n" ++ t.content) ∧
      (exportDocument "2025-03"
          [(⟨"user", "q1"⟩ : ConversationTurn), ⟨"assistant", "a1"⟩]).2.length =
        ([(⟨"user", "q1"⟩ : ConversationTurn), ⟨"assistant", "a1"⟩]).length ∧
      exportFilename "2025-03" "20250301_120000" =
        "Analysis_" ++ "2025-03" ++ "_" ++ "20250301_120000" ++ ".docx") :=
  ⟨by decide,
   export_transcript_shape "2025-03" "20250301_120000"
     [⟨"user", "q1"⟩, ⟨"assistant", "a1"⟩] (by decide)⟩

/-- C9: any state reached by a successful initial analysis followed by
successful follow-ups has a history of exactly 2 + 2 * followup_count turns
that strictly alternates user and assistant turns starting with a user turn:
the seeding at lines 124-127 contributes the first pair, and each recorded
follow-up appends one user and one assistant turn (lines 146 and 169). -/
theorem reachable_history_alternating (st : SessionState)
    (h : ReachableNoFail st) :
    st.conversation_history.length = 2 + 2 * st.followup_count ∧
    altUA st.conversation_history = true := by
  induction h with
  | seeded month csv threadId statuses messages st n heq =>
    obtain ⟨r, hh, hc, -⟩ := runAnalysis_success_shape heq
    rw [hh, hc]
    constructor
    · simp [initialState]
    · simp [altUA]
  | followup st st' month question reply hreach heq ih =>
    obtain ⟨prompt, hh, hc⟩ := askFollowup_success_shape heq
    rw [hh, hc]
    constructor
    · have h1 := ih.1
      simp only [List.length_append, List.length_cons, List.length_nil]
      omega
    · exact altUA_append_pair prompt reply st.conversation_history ih.2

/-- The state produced by a successful initial analysis for 2025-03 whose
run answered OUT at the first status query. -/
def seededState : SessionState :=
  { analysis_output := some "OUT"
    followup_count := 0
    conversation_history :=
      [⟨"user", csvSubmittedMarker "2025-03"⟩, ⟨"assistant", "OUT"⟩]
    csv_data := some "csvsnap"
    analysis_thread_id := some "t9"
    last_reply := none }

/-- Witness for C9: a concrete reachable state and its history shape. -/
theorem reachable_history_alternating_witness :
    ReachableNoFail seededState ∧
    (seededState.conversation_history.length =
        2 + 2 * seededState.followup_count ∧
      altUA seededState.conversation_history = true) :=
  have hreach : ReachableNoFail seededState :=
    ReachableNoFail.seeded "2025-03" "csvsnap" "t9" ["completed"] ["OUT"]
      seededState 1 (by decide)
  ⟨hreach, reachable_history_alternating seededState hreach⟩

end Radar
